import Mathlib

/-!
Verification of the GMU housing chat backend
(`backend_gmu_housing_google.py.py`, a single-file FastAPI service).

The development shallowly embeds the program:

* JSON values are an inductive type `Json`; `json_loads` models Python's
  `json.loads` (a total, fuel-driven recursive-descent parser accepting the
  same grammar: `null`/`true`/`false`/`NaN`/`Infinity`/`-Infinity`, integer
  and float numerals, strings with the standard escapes, arrays, objects,
  surrounding whitespace, whole input consumed).  Float numerals are kept as
  their literal text — no claim depends on float arithmetic.
* `json_dumps2` models `json.dumps(x, indent=2)` with `ensure_ascii`
  escaping.
* The Gemini call is abstracted as an oracle `String → Except String String`
  (prompt in, raw text or transport error out); the handler `chat` is the
  translation of the `/api/chat` endpoint, startup of the module-level code.
* Pydantic validation of `ChatResponse(recommendations=...)` is
  `validateRecommendations` (required fields, extra keys ignored, lax
  integer coercion from integer-literal strings).  The modelled acceptance
  is deliberately a subset of pydantic's (for instance lax integral-float
  coercion, `1200.0 → 1200`, is not modelled): success theorems assume
  modelled acceptance, and failure theorems rely only on structural shapes
  (`notRecommendationArrayShape`) that pydantic certainly rejects, so every
  theorem is faithful on either side of the coercion boundary.
-/

set_option autoImplicit false
set_option maxRecDepth 8192

namespace Zariya

/-- JSON values as produced by `json.loads`.  A `float` keeps the literal
text of the numeral (its numeric value is never consumed by this program). -/
inductive Json where
  | null
  | bool (b : Bool)
  | num (n : Int)
  | float (lit : String)
  | str (s : String)
  | arr (elems : List Json)
  | obj (fields : List (String × Json))
deriving Repr, Inhabited

/-- JSON whitespace characters (space, tab, newline, carriage return). -/
def isJsonWs (c : Char) : Bool :=
  c = ' ' || c = '\t' || c = '\n' || c = '\r'

/-- Drop leading JSON whitespace. -/
def skipWs : List Char → List Char
  | [] => []
  | c :: cs => if isJsonWs c then skipWs cs else c :: cs

/-- If `cs` begins with the characters `kw`, return the remainder. -/
def dropKeyword : List Char → List Char → Option (List Char)
  | [], cs => some cs
  | k :: ks, c :: cs => if c = k then dropKeyword ks cs else none
  | _ :: _, [] => none

/-- Value of a hexadecimal digit. -/
def hexDigitVal (c : Char) : Option Nat :=
  if '0' ≤ c ∧ c ≤ '9' then some (c.toNat - '0'.toNat)
  else if 'a' ≤ c ∧ c ≤ 'f' then some (c.toNat - 'a'.toNat + 10)
  else if 'A' ≤ c ∧ c ≤ 'F' then some (c.toNat - 'A'.toNat + 10)
  else none

/-- Body of a JSON string literal, after the opening quote.  Accumulates
characters in reverse; handles the standard escapes and `\uXXXX`; rejects
unescaped control characters (strict mode, as `json.loads` does). -/
def parseStringBody : Nat → List Char → List Char → Option (String × List Char)
  | 0, _, _ => none
  | _ + 1, _, [] => none
  | fuel + 1, acc, c :: cs =>
    if c = '"' then some (⟨acc.reverse⟩, cs)
    else if c = '\\' then
      match cs with
      | [] => none
      | e :: cs2 =>
        if e = '"' then parseStringBody fuel ('"' :: acc) cs2
        else if e = '\\' then parseStringBody fuel ('\\' :: acc) cs2
        else if e = '/' then parseStringBody fuel ('/' :: acc) cs2
        else if e = 'b' then parseStringBody fuel ('\x08' :: acc) cs2
        else if e = 'f' then parseStringBody fuel ('\x0c' :: acc) cs2
        else if e = 'n' then parseStringBody fuel ('\n' :: acc) cs2
        else if e = 'r' then parseStringBody fuel ('\r' :: acc) cs2
        else if e = 't' then parseStringBody fuel ('\t' :: acc) cs2
        else if e = 'u' then
          match cs2 with
          | h1 :: h2 :: h3 :: h4 :: cs3 =>
            match hexDigitVal h1, hexDigitVal h2, hexDigitVal h3, hexDigitVal h4 with
            | some a, some b, some c3, some d =>
              parseStringBody fuel
                (Char.ofNat (((a * 16 + b) * 16 + c3) * 16 + d) :: acc) cs3
            | _, _, _, _ => none
          | _ => none
        else none
    else if c.toNat < 32 then none
    else parseStringBody fuel (c :: acc) cs

/-- Greedily take decimal digits. -/
def takeDigits : List Char → List Char × List Char
  | [] => ([], [])
  | c :: cs =>
    if c.isDigit then
      let (ds, r) := takeDigits cs
      (c :: ds, r)
    else ([], c :: cs)

/-- Decimal value of a digit list. -/
def digitsToNat : List Char → Nat :=
  List.foldl (fun acc c => acc * 10 + (c.toNat - '0'.toNat)) 0

/-- Optional fraction part `.digits` of a numeral (the consumed characters
and the remainder); fails on a dot without digits. -/
def parseFracPart : List Char → Option (List Char × List Char)
  | '.' :: cs =>
    let (ds, r) := takeDigits cs
    if ds.isEmpty then none else some ('.' :: ds, r)
  | cs => some ([], cs)

/-- Optional exponent part `e[±]digits` of a numeral. -/
def parseExpPart : List Char → Option (List Char × List Char)
  | [] => some ([], [])
  | c :: cs =>
    if c = 'e' ∨ c = 'E' then
      match cs with
      | s :: cs2 =>
        if s = '+' ∨ s = '-' then
          let (ds, r) := takeDigits cs2
          if ds.isEmpty then none else some (c :: s :: ds, r)
        else
          let (ds, r) := takeDigits cs
          if ds.isEmpty then none else some (c :: ds, r)
      | [] => none
    else some ([], c :: cs)

/-- Finish a numeral whose integer digits are `ipart`: an integer yields
`Json.num`, a fraction or exponent yields a `Json.float` literal. -/
def finishNumber (neg : Bool) (ipart : List Char) (r1 : List Char) :
    Option (Json × List Char) :=
  match parseFracPart r1 with
  | none => none
  | some (fp, r2) =>
    match parseExpPart r2 with
    | none => none
    | some (ep, r3) =>
      if fp.isEmpty ∧ ep.isEmpty then
        let n : Int := Int.ofNat (digitsToNat ipart)
        some (Json.num (if neg then -n else n), r3)
      else
        let lit : List Char := ipart ++ fp ++ ep
        some (Json.float ⟨if neg then '-' :: lit else lit⟩, r3)

/-- Numeral after an optional leading minus sign.  As in `json.loads`, a
leading `0` may not be followed by further integer digits. -/
def parseNumberAfterSign (neg : Bool) : List Char → Option (Json × List Char)
  | [] => none
  | c :: cs =>
    if c = '0' then finishNumber neg ['0'] cs
    else if c.isDigit then
      let (ds, r) := takeDigits (c :: cs)
      finishNumber neg ds r
    else none

/-- Parser mode: a whole value, the elements of an array (accumulated in
reverse), or the members of an object (accumulated in reverse).  A single
mode-indexed function keeps the recursion structural in the fuel, so that
concrete inputs evaluate definitionally. -/
inductive PMode where
  | value
  | elems (acc : List Json)
  | members (acc : List (String × Json))

/-- Fuel-driven recursive-descent JSON parser (the recursive core of
`json_loads`).  In `value` mode it parses one JSON value after optional
whitespace; `elems`/`members` parse the comma-separated tails of arrays and
objects. -/
def parseF : Nat → PMode → List Char → Option (Json × List Char)
  | 0, _, _ => none
  | fuel + 1, PMode.value, cs =>
    match skipWs cs with
    | [] => none
    | c :: rest =>
      if c = '\x7b' then
        match skipWs rest with
        | '\x7d' :: r2 => some (Json.obj [], r2)
        | other => parseF fuel (PMode.members []) other
      else if c = '[' then
        match skipWs rest with
        | ']' :: r2 => some (Json.arr [], r2)
        | other => parseF fuel (PMode.elems []) other
      else if c = '"' then
        match parseStringBody (rest.length + 1) [] rest with
        | some (s, r) => some (Json.str s, r)
        | none => none
      else if c = '-' then
        match rest with
        | 'I' :: r2 =>
          match dropKeyword ['n', 'f', 'i', 'n', 'i', 't', 'y'] r2 with
          | some r3 => some (Json.float "-Infinity", r3)
          | none => none
        | _ => parseNumberAfterSign true rest
      else if c = 'n' then
        match dropKeyword ['u', 'l', 'l'] rest with
        | some r => some (Json.null, r)
        | none => none
      else if c = 't' then
        match dropKeyword ['r', 'u', 'e'] rest with
        | some r => some (Json.bool true, r)
        | none => none
      else if c = 'f' then
        match dropKeyword ['a', 'l', 's', 'e'] rest with
        | some r => some (Json.bool false, r)
        | none => none
      else if c = 'N' then
        match dropKeyword ['a', 'N'] rest with
        | some r => some (Json.float "NaN", r)
        | none => none
      else if c = 'I' then
        match dropKeyword ['n', 'f', 'i', 'n', 'i', 't', 'y'] rest with
        | some r => some (Json.float "Infinity", r)
        | none => none
      else if c.isDigit then parseNumberAfterSign false (c :: rest)
      else none
  | fuel + 1, PMode.elems acc, cs =>
    match parseF fuel PMode.value cs with
    | none => none
    | some (v, r1) =>
      match skipWs r1 with
      | ',' :: r2 => parseF fuel (PMode.elems (v :: acc)) r2
      | ']' :: r2 => some (Json.arr (v :: acc).reverse, r2)
      | _ => none
  | fuel + 1, PMode.members acc, cs =>
    match skipWs cs with
    | '"' :: r1 =>
      match parseStringBody (r1.length + 1) [] r1 with
      | none => none
      | some (k, r2) =>
        match skipWs r2 with
        | ':' :: r3 =>
          match parseF fuel PMode.value r3 with
          | none => none
          | some (v, r4) =>
            match skipWs r4 with
            | ',' :: r5 => parseF fuel (PMode.members ((k, v) :: acc)) r5
            | '\x7d' :: r5 => some (Json.obj ((k, v) :: acc).reverse, r5)
            | _ => none
        | _ => none
    | _ => none

/-- One JSON value (leading whitespace allowed), fuel-driven. -/
def parseValue (fuel : Nat) (cs : List Char) : Option (Json × List Char) :=
  parseF fuel PMode.value cs

/-- Model of Python `json.loads`: parse one value, require the whole input
(up to trailing whitespace) to be consumed; `none` is a raised
`JSONDecodeError`.  The fuel bound exceeds any possible recursion depth for
the given input length. -/
def json_loads (s : String) : Option Json :=
  let cs := s.data
  match parseValue (2 * cs.length + 8) cs with
  | some (j, rest) => if (skipWs rest).isEmpty then some j else none
  | none => none


/-- Hexadecimal digit character (lowercase, as Python emits). -/
def hexDigitChar (n : Nat) : Char :=
  if n < 10 then Char.ofNat ('0'.toNat + n) else Char.ofNat ('a'.toNat + (n - 10))

/-- Four-digit lowercase hexadecimal rendering, for `\uXXXX` escapes. -/
def hex4 (n : Nat) : List Char :=
  [hexDigitChar (n / 4096 % 16), hexDigitChar (n / 256 % 16),
   hexDigitChar (n / 16 % 16), hexDigitChar (n % 16)]

/-- Escape of one character inside a JSON string literal, as
`json.dumps` with `ensure_ascii` does: the named two-character escapes,
`\uXXXX` for other control or non-ASCII characters (surrogate pairs beyond
the BMP), the character itself otherwise. -/
def escapeChar (c : Char) : List Char :=
  if c = '"' then ['\\', '"']
  else if c = '\\' then ['\\', '\\']
  else if c = '\n' then ['\\', 'n']
  else if c = '\r' then ['\\', 'r']
  else if c = '\t' then ['\\', 't']
  else if c = '\x08' then ['\\', 'b']
  else if c = '\x0c' then ['\\', 'f']
  else if c.toNat < 32 then '\\' :: 'u' :: hex4 c.toNat
  else if c.toNat < 127 then [c]
  else if c.toNat ≤ 65535 then '\\' :: 'u' :: hex4 c.toNat
  else
    let n := c.toNat - 65536
    ('\\' :: 'u' :: hex4 (55296 + n / 1024)) ++ ('\\' :: 'u' :: hex4 (56320 + n % 1024))

/-- A JSON string literal for `s`, `ensure_ascii` style. -/
def encodeJsonString (s : String) : String :=
  ⟨'"' :: s.data.foldr (fun c acc => escapeChar c ++ acc) ['"']⟩

/-- `2 * lvl` spaces: the indentation of nesting level `lvl` under
`indent=2`. -/
def indentStr (lvl : Nat) : String :=
  ⟨List.replicate (2 * lvl) ' '⟩

mutual

/-- One value under `json.dumps(x, indent=2)` at nesting level `lvl`:
items one per line separated by `,\n`, two spaces of indentation per level,
`": "` between key and value, the closing bracket at the parent's
indentation, `[]` and empty braces for empty containers. -/
def dumpsVal (lvl : Nat) : Json → String
  | Json.null => "null"
  | Json.bool true => "true"
  | Json.bool false => "false"
  | Json.num n => toString n
  | Json.float lit => lit
  | Json.str s => encodeJsonString s
  | Json.arr [] => "[]"
  | Json.arr (x :: xs) =>
    "[\n" ++ dumpsElems (lvl + 1) (x :: xs) ++ "\n" ++ indentStr lvl ++ "]"
  | Json.obj [] => "\x7b\x7d"
  | Json.obj (f :: fs) =>
    "\x7b\n" ++ dumpsFields (lvl + 1) (f :: fs) ++ "\n" ++ indentStr lvl ++ "\x7d"

/-- Array elements, one per line, comma separated. -/
def dumpsElems (lvl : Nat) : List Json → String
  | [] => ""
  | [x] => indentStr lvl ++ dumpsVal lvl x
  | x :: xs => indentStr lvl ++ dumpsVal lvl x ++ ",\n" ++ dumpsElems lvl xs

/-- Object members, one per line, comma separated. -/
def dumpsFields (lvl : Nat) : List (String × Json) → String
  | [] => ""
  | [(k, v)] => indentStr lvl ++ encodeJsonString k ++ ": " ++ dumpsVal lvl v
  | (k, v) :: fs =>
    indentStr lvl ++ encodeJsonString k ++ ": " ++ dumpsVal lvl v ++ ",\n"
      ++ dumpsFields lvl fs

end

/-- Model of Python `json.dumps(x, indent=2)`. -/
def json_dumps2 (j : Json) : String :=
  dumpsVal 0 j

/-- Subscripting a parsed JSON value with a string key, `d[k]` on the result
of `json.loads`: the value of the key in an object (the last occurrence, as
Python's dict construction keeps the last duplicate), `none` (a raised
`KeyError` / `TypeError`) when the key is absent or the value is not an
object. -/
def dictGet (j : Json) (k : String) : Option Json :=
  match j with
  | Json.obj fields =>
    fields.foldl (fun acc kv => if kv.1 = k then some kv.2 else acc) none
  | _ => none

/-- Python `len` on a parsed JSON value: length of an array or string,
number of distinct keys of an object; `none` (a raised `TypeError`) on
`null`, booleans and numbers. -/
def pyLen (j : Json) : Option Nat :=
  match j with
  | Json.arr xs => some xs.length
  | Json.str s => some s.length
  | Json.obj fields => some (fields.map Prod.fst).dedup.length
  | _ => none

/-- The `ChatRequest` pydantic model: `\x7b message: str \x7d`. -/
structure ChatRequest where
  message : String
deriving Repr, DecidableEq

/-- The `Recommendation` pydantic model. -/
structure Recommendation where
  title : String
  price : Int
  bedrooms : Int
  bathrooms : Int
  address : String
  reason : String
deriving Repr, DecidableEq

/-- The `ChatResponse` pydantic model. -/
structure ChatResponse where
  reply : String
  recommendations : List Recommendation
deriving Repr, DecidableEq

/-- Pydantic validation of a `str` field from a parsed JSON value (pydantic
v2 does not coerce numbers to strings). -/
def asStr : Json → Option String
  | Json.str s => some s
  | _ => none

/-- Pydantic validation of an `int` field from a parsed JSON value,
modelled conservatively: a JSON integer, or (lax coercion) a string
spelling an integer.  Lax mode also coerces integral floats
(`1200.0 → 1200`); this model rejects every float (whose exact IEEE
behaviour — rounding, overflow to infinity — is outside the embedding), so
the modelled acceptance is a strict subset of pydantic's.  Theorems use
only that direction: success theorems assume modelled acceptance, and
failure theorems are stated over `notRecommendationArrayShape`, shapes
pydantic certainly rejects regardless of coercion. -/
def asInt : Json → Option Int
  | Json.num n => some n
  | Json.str s => s.toInt?
  | _ => none

/-- Validation of one element of `recommendations` against the
`Recommendation` model: the element must be an object providing all six
required fields (extra keys are ignored, pydantic's default). -/
def validateRecommendation (j : Json) : Option Recommendation :=
  match j with
  | Json.obj _ => do
    let t ← (dictGet j "title").bind asStr
    let p ← (dictGet j "price").bind asInt
    let bd ← (dictGet j "bedrooms").bind asInt
    let ba ← (dictGet j "bathrooms").bind asInt
    let ad ← (dictGet j "address").bind asStr
    let rs ← (dictGet j "reason").bind asStr
    some ⟨t, p, bd, ba, ad, rs⟩
  | _ => none

/-- `f` on every element, in order; `none` as soon as one element fails. -/
def mapOptionAll {α β : Type} (f : α → Option β) : List α → Option (List β)
  | [] => some []
  | x :: xs =>
    match f x, mapOptionAll f xs with
    | some y, some ys => some (y :: ys)
    | _, _ => none

/-- Pydantic validation of `ChatResponse(recommendations=...)` where the
given value is the raw result of `json.loads`: it must be an array, and
every element must validate as a `Recommendation` (in order). -/
def validateRecommendations (j : Json) : Option (List Recommendation) :=
  match j with
  | Json.arr xs => mapOptionAll validateRecommendation xs
  | _ => none

/-- Whether a parsed JSON value fails to provide one of the six fields the
`Recommendation` model requires — because it is not an object or because
the key is absent.  Pydantic rejects such an element regardless of any
value-coercion rule (the fields are required and only mappings are
accepted). -/
def missingRecommendationField (j : Json) : Bool :=
  (dictGet j "title").isNone || (dictGet j "price").isNone
    || (dictGet j "bedrooms").isNone || (dictGet j "bathrooms").isNone
    || (dictGet j "address").isNone || (dictGet j "reason").isNone

/-- Whether a parsed JSON value is structurally not an array of objects
bearing the six `Recommendation` fields: it is not an array at all, or some
element is not an object or lacks a required field.  On every such value the
real endpoint certainly raises (a `TypeError` from `len` or a pydantic
`ValidationError`), independent of pydantic's numeric coercion rules. -/
def notRecommendationArrayShape (j : Json) : Bool :=
  match j with
  | Json.arr xs => xs.any missingRecommendationField
  | _ => true

/-- Errors that escape the `/api/chat` handler (no `ChatResponse` is
produced for the request; the hosting framework turns them into a
framework-default error): the `KeyError`/`TypeError` raised by
`listings['listings']` in `ask_gemini`, a transport error raised by the
Gemini call, the `TypeError` raised by `len(recommendations)` on a
non-sized value, and the pydantic `ValidationError` raised by
`ChatResponse(...)`. -/
inductive ChatError where
  | missingListingsKey
  | transport (msg : String)
  | lenTypeError
  | responseValidationError
deriving Repr, DecidableEq

/-- Fatal startup errors: `ValueError` for a missing (or empty, since
`if not api_key` is also true of `""`) `GEMINI_API_KEY`, `FileNotFoundError`
for a missing `listings.json`, `JSONDecodeError` for one that is not valid
JSON.  Any of them is raised by the module-level code, so the process never
reaches `app` construction and the HTTP server never accepts a
connection. -/
inductive StartupError where
  | missingApiKey
  | missingDataFile
  | corruptDataFile
deriving Repr, DecidableEq

/-- The process-wide state built by the module-level code: the credential
and `housing_data`, the parse of `listings.json` read once at startup.
Request handling receives only this state — the file is never re-read. -/
structure AppState where
  api_key : String
  housing_data : Json
deriving Repr

/-- The module-level startup code: `os.getenv("GEMINI_API_KEY")` with the
`if not api_key: raise ValueError`, then `open("listings.json")` (`none`
models a missing file) and `json.load`.  `Except.error` is a raised
exception: the process does not start. -/
def startup (gemini_api_key : Option String) (listings_file : Option String) :
    Except StartupError AppState :=
  match gemini_api_key with
  | none => Except.error StartupError.missingApiKey
  | some k =>
    if k = "" then Except.error StartupError.missingApiKey
    else
      match listings_file with
      | none => Except.error StartupError.missingDataFile
      | some contents =>
        match json_loads contents with
        | none => Except.error StartupError.corruptDataFile
        | some j => Except.ok { api_key := k, housing_data := j }

/-- Text of the prompt f-string before the serialized listing data. -/
def promptHeader : String :=
  "\nYou are an expert GMU student housing assistant.\n\nHere is the housing data:\n"

/-- Text of the prompt f-string between the listing data and the user
query. -/
def promptMid : String :=
  "\n\nUser request: \""

/-- Text of the prompt f-string after the user query. -/
def promptTail : String :=
  "\"\n\nPick the top 3 housing options that best match the user's request.\nFor each, return a JSON object with fields:\n  title, price, bedrooms, bathrooms, address, reason\n\nExplain in the \"reason\" field why it fits the request.\nReturn valid JSON only, like:\n\n[\n  \x7b\n    \"title\": \"...\",\n    \"price\": 0,\n    \"bedrooms\": 0,\n    \"bathrooms\": 0,\n    \"address\": \"...\",\n    \"reason\": \"...\"\n  \x7d\n]\n"

/-- The prompt `ask_gemini` builds from the user query and the value of
`listings['listings']`: the f-string with
`json.dumps(listings['listings'], indent=2)` and the query interpolated. -/
def ask_gemini_prompt (user_query : String) (listingsVal : Json) : String :=
  promptHeader ++ json_dumps2 listingsVal ++ promptMid ++ user_query ++ promptTail

/-- `ask_gemini(user_query, listings)`: evaluate `listings['listings']`
(raising if absent — before the API call), build the prompt, call the
completion client (modelled as the oracle `complete`; a transport error it
raises is not caught), return the raw text. -/
def ask_gemini (user_query : String) (listings : Json)
    (complete : String → Except String String) : Except ChatError String :=
  match dictGet listings "listings" with
  | none => Except.error ChatError.missingListingsKey
  | some l =>
    match complete (ask_gemini_prompt user_query l) with
    | Except.error e => Except.error (ChatError.transport e)
    | Except.ok t => Except.ok t

/-- Reply text of the parse-failure branch,
`f"Could not parse model output. Raw text:\n{raw_response}"`. -/
def parseFailureReply (raw : String) : String :=
  "Could not parse model output. Raw text:\n" ++ raw

/-- Reply text of the success branch,
`f"I found {len(recommendations)} housing options matching your request."`. -/
def countReply (n : Nat) : String :=
  "I found " ++ toString n ++ " housing options matching your request."

/-- The `/api/chat` handler.  `try: json.loads(raw)` — only this call is
inside the `try`; on failure the handler returns the degraded 200 response.
On success the code first evaluates `len(recommendations)` (a `TypeError`
escapes) and then `ChatResponse(reply=..., recommendations=...)` (a pydantic
`ValidationError` escapes). -/
def chat (st : AppState) (request : ChatRequest)
    (complete : String → Except String String) : Except ChatError ChatResponse :=
  match ask_gemini request.message st.housing_data complete with
  | Except.error e => Except.error e
  | Except.ok raw =>
    match json_loads raw with
    | none => Except.ok { reply := parseFailureReply raw, recommendations := [] }
    | some j =>
      match pyLen j with
      | none => Except.error ChatError.lenTypeError
      | some n =>
        match validateRecommendations j with
        | none => Except.error ChatError.responseValidationError
        | some recs => Except.ok { reply := countReply n, recommendations := recs }

/-- The handler as a state transformer over the process-wide state: the
endpoint only reads `housing_data`, so the state after the request is the
state before it (the handler body contains no assignment to any global). -/
def handleRequest (st : AppState) (request : ChatRequest)
    (complete : String → Except String String) :
    Except ChatError ChatResponse × AppState :=
  (chat st request complete, st)

/-- Whether an `Except` computation returned normally (`ok`); `false` means
the exception escaped and, for the handler, that no `ChatResponse` was
produced for the request. -/
def returnsOk {ε α : Type} : Except ε α → Bool
  | Except.ok _ => true
  | Except.error _ => false

/-!  Helper lemmas. -/

theorem mapOptionAll_length {α β : Type} (f : α → Option β) :
    ∀ xs ys, mapOptionAll f xs = some ys → ys.length = xs.length := by
  intro xs
  induction xs with
  | nil => intro ys h; simp [mapOptionAll] at h; simp [← h]
  | cons x xs ih =>
    intro ys h
    simp only [mapOptionAll] at h
    cases hfx : f x with
    | none => rw [hfx] at h; simp at h
    | some y =>
      rw [hfx] at h
      cases hrest : mapOptionAll f xs with
      | none => rw [hrest] at h; simp at h
      | some ys2 =>
        rw [hrest] at h
        simp at h
        subst h
        simp [ih ys2 hrest]

theorem mapOptionAll_get {α β : Type} (f : α → Option β) :
    ∀ xs ys, mapOptionAll f xs = some ys →
      ∀ i (h1 : i < xs.length) (h2 : i < ys.length),
        f (xs.get ⟨i, h1⟩) = some (ys.get ⟨i, h2⟩) := by
  intro xs
  induction xs with
  | nil => intro ys h i h1 h2; simp at h1
  | cons x xs ih =>
    intro ys h i h1 h2
    simp only [mapOptionAll] at h
    cases hfx : f x with
    | none => rw [hfx] at h; simp at h
    | some y =>
      rw [hfx] at h
      cases hrest : mapOptionAll f xs with
      | none => rw [hrest] at h; simp at h
      | some ys2 =>
        rw [hrest] at h
        simp at h
        subst h
        cases i with
        | zero => simpa using hfx
        | succ i' =>
          exact ih ys2 hrest i' (Nat.lt_of_succ_lt_succ h1) (Nat.lt_of_succ_lt_succ h2)

theorem countReply_data (n : Nat) :
    (countReply n).data
      = 'I' :: (" found ".data ++ (toString n).data
          ++ " housing options matching your request.".data) := by
  simp only [countReply, String.data_append]
  rfl

theorem noticeAppend_data (t : String) :
    (("Could not parse model output." : String) ++ t).data
      = 'C' :: ("ould not parse model output.".data ++ t.data) := by
  rw [String.data_append]
  rfl

theorem countReply_ne_noticeAppend (n : Nat) (t : String) :
    countReply n ≠ ("Could not parse model output." : String) ++ t := by
  intro h
  have h1 := congrArg (fun s => s.data.head?) h
  simp only [countReply_data, noticeAppend_data, List.head?] at h1
  exact absurd (Option.some.inj h1) (by decide)

theorem pyLen_of_validate (j : Json) (recs : List Recommendation)
    (h : validateRecommendations j = some recs) : pyLen j = some recs.length := by
  cases j <;> simp [validateRecommendations] at h
  case arr xs =>
    simp only [pyLen, Option.some.injEq]
    exact (mapOptionAll_length validateRecommendation xs recs h).symm

theorem option_bind_none {α β : Type} (o : Option α) :
    (o.bind fun _ => (none : Option β)) = none := by
  cases o <;> rfl

theorem mapOptionAll_none_of_mem {α β : Type} (f : α → Option β)
    (xs : List α) (x : α) (hx : x ∈ xs) (hfx : f x = none) :
    mapOptionAll f xs = none := by
  induction xs with
  | nil => cases hx
  | cons y ys ih =>
    cases hx with
    | head => simp [mapOptionAll, hfx]
    | tail _ hmem =>
      simp only [mapOptionAll, ih hmem]
      cases f y <;> rfl

theorem validateRecommendation_none_of_missing (j : Json)
    (h : missingRecommendationField j = true) :
    validateRecommendation j = none := by
  cases j <;> try rfl
  case obj fields =>
    simp only [missingRecommendationField, Bool.or_eq_true,
      Option.isNone_iff_eq_none] at h
    rcases h with ((((h | h) | h) | h) | h) | h <;>
      simp [validateRecommendation, h, option_bind_none]

theorem validateRecommendations_none_of_shape (j : Json)
    (h : notRecommendationArrayShape j = true) :
    validateRecommendations j = none := by
  cases j <;> try rfl
  case arr xs =>
    simp only [notRecommendationArrayShape, List.any_eq_true] at h
    obtain ⟨x, hmem, hx⟩ := h
    simp only [validateRecommendations]
    exact mapOptionAll_none_of_mem validateRecommendation xs x hmem
      (validateRecommendation_none_of_missing x hx)

theorem parseFailureReply_split (raw : String) :
    parseFailureReply raw
      = ("Could not parse model output." : String) ++ (" Raw text:\n" ++ raw) := by
  rw [← String.append_assoc]
  rfl

theorem promptHeader_split :
    promptHeader
      = "\n" ++ "You are an expert GMU student housing assistant."
        ++ "\n\nHere is the housing data:\n" := by
  rfl

theorem promptTail_split :
    promptTail
      = "\"\n\n"
        ++ "Pick the top 3 housing options that best match the user's request."
        ++ "\nFor each, return a JSON object with fields:\n  "
        ++ "title, price, bedrooms, bathrooms, address, reason"
        ++ "\n\nExplain in the \"reason\" field why it fits the request.\n"
        ++ "Return valid JSON only, like:"
        ++ "\n\n[\n  \x7b\n    \"title\": \"...\",\n    \"price\": 0,\n    \"bedrooms\": 0,\n    \"bathrooms\": 0,\n    \"address\": \"...\",\n    \"reason\": \"...\"\n  \x7d\n]\n" := by
  rfl

/-- Fully right-associated decomposition of the prompt into its meaningful
segments. -/
theorem ask_gemini_prompt_split (q : String) (l : Json) :
    ask_gemini_prompt q l
      = "\n" ++ ("You are an expert GMU student housing assistant."
        ++ ("\n\nHere is the housing data:\n" ++ (json_dumps2 l
        ++ ("\n\nUser request: \"" ++ (q ++ ("\"\n\n"
        ++ ("Pick the top 3 housing options that best match the user's request."
        ++ ("\nFor each, return a JSON object with fields:\n  "
        ++ ("title, price, bedrooms, bathrooms, address, reason"
        ++ ("\n\nExplain in the \"reason\" field why it fits the request.\n"
        ++ ("Return valid JSON only, like:"
        ++ "\n\n[\n  \x7b\n    \"title\": \"...\",\n    \"price\": 0,\n    \"bedrooms\": 0,\n    \"bathrooms\": 0,\n    \"address\": \"...\",\n    \"reason\": \"...\"\n  \x7d\n]\n"))))))))))) := by
  simp only [ask_gemini_prompt, promptHeader_split, promptMid, promptTail_split,
    String.append_assoc]

/-- A segment embedded somewhere in `rest` is embedded in `x ++ rest`. -/
theorem embed_peel (x rest y : String) (h : ∃ a b, rest = a ++ (y ++ b)) :
    ∃ a b, x ++ rest = a ++ (y ++ b) := by
  obtain ⟨a, b, hab⟩ := h
  exact ⟨x ++ a, b, by rw [hab, String.append_assoc]⟩

/-- The head segment of `x ++ (y ++ rest)` after the first atom. -/
theorem embed_found (x y rest : String) : ∃ a b, x ++ (y ++ rest) = a ++ (y ++ b) :=
  ⟨x, rest, rfl⟩

/-!  Claim theorems. -/

/-- C5.  Prompt construction is a deterministic function of its inputs: the
same user message and the same listing snapshot produce byte-identical
prompt text.  (In the embedding the prompt builder is the pure function
`ask_gemini_prompt`.) -/
theorem ask_gemini_prompt_deterministic (m1 m2 : String) (l1 l2 : Json)
    (hm : m1 = m2) (hl : l1 = l2) :
    ask_gemini_prompt m1 l1 = ask_gemini_prompt m2 l2 := by
  rw [hm, hl]

theorem ask_gemini_prompt_deterministic_witness :
    ask_gemini_prompt "cheap 2 bed near campus" (Json.arr [])
      = ask_gemini_prompt "cheap 2 bed near campus" (Json.arr []) :=
  ask_gemini_prompt_deterministic "cheap 2 bed near campus"
    "cheap 2 bed near campus" (Json.arr []) (Json.arr []) rfl rfl

/-- C6.  For every user query and listing value the constructed prompt
embeds: (1) the housing-expert role instruction, (2) the full serialized
listing collection `json.dumps(listings['listings'], indent=2)`, (3) the
literal user query, and (4) the output-format instruction — the top-3
request, the exact six field names, and the valid-JSON-only directive. -/
theorem ask_gemini_prompt_embeds_all_parts (q : String) (l : Json) :
    (∃ a b, ask_gemini_prompt q l
        = a ++ ("You are an expert GMU student housing assistant." ++ b))
    ∧ (∃ a b, ask_gemini_prompt q l = a ++ (json_dumps2 l ++ b))
    ∧ (∃ a b, ask_gemini_prompt q l = a ++ (q ++ b))
    ∧ (∃ a b, ask_gemini_prompt q l
        = a ++ ("Pick the top 3 housing options that best match the user's request." ++ b))
    ∧ (∃ a b, ask_gemini_prompt q l
        = a ++ ("title, price, bedrooms, bathrooms, address, reason" ++ b))
    ∧ (∃ a b, ask_gemini_prompt q l = a ++ ("Return valid JSON only, like:" ++ b)) := by
  refine ⟨?_, ?_, ?_, ?_, ?_, ?_⟩
  all_goals simp only [ask_gemini_prompt_split]
  · exact embed_found _ _ _
  · exact embed_peel _ _ _ (embed_peel _ _ _ (embed_found _ _ _))
  · exact embed_peel _ _ _ (embed_peel _ _ _ (embed_peel _ _ _ (embed_peel _ _ _
      (embed_found _ _ _))))
  · exact embed_peel _ _ _ (embed_peel _ _ _ (embed_peel _ _ _ (embed_peel _ _ _
      (embed_peel _ _ _ (embed_peel _ _ _ (embed_found _ _ _))))))
  · exact embed_peel _ _ _ (embed_peel _ _ _ (embed_peel _ _ _ (embed_peel _ _ _
      (embed_peel _ _ _ (embed_peel _ _ _ (embed_peel _ _ _ (embed_peel _ _ _
      (embed_found _ _ _))))))))
  · exact embed_peel _ _ _ (embed_peel _ _ _ (embed_peel _ _ _ (embed_peel _ _ _
      (embed_peel _ _ _ (embed_peel _ _ _ (embed_peel _ _ _ (embed_peel _ _ _
      (embed_peel _ _ _ (embed_peel _ _ _ (embed_found _ _ _))))))))))

/-- C4.  The Listing Store is never mutated by request handling: the state
after a request is the state before it, and the listing data embedded in
the prompts of two consecutive requests (the second on the post-state of
the first) is the identical string `json.dumps(l, indent=2)`.  (That the
data is read from the file only at startup is structural in the embedding:
`chat` receives only `AppState`, never the file.) -/
theorem listing_store_immutable (st : AppState) (r1 r2 : ChatRequest)
    (c1 : String → Except String String) :
    (handleRequest st r1 c1).2 = st
    ∧ ∀ l, dictGet ((handleRequest st r1 c1).2).housing_data "listings" = some l →
        ∃ b1 b2,
          ask_gemini_prompt r1.message l = promptHeader ++ (json_dumps2 l ++ b1)
          ∧ ask_gemini_prompt r2.message l = promptHeader ++ (json_dumps2 l ++ b2) := by
  refine ⟨rfl, fun l _ => ⟨promptMid ++ (r1.message ++ promptTail),
    promptMid ++ (r2.message ++ promptTail), ?_, ?_⟩⟩
  all_goals simp only [ask_gemini_prompt, String.append_assoc]

theorem listing_store_immutable_witness :
    (handleRequest { api_key := "k", housing_data := Json.obj [("listings", Json.arr [])] }
        { message := "first message" } (fun _ => Except.ok "[]")).2
      = { api_key := "k", housing_data := Json.obj [("listings", Json.arr [])] }
    ∧ ∃ b1 b2,
        ask_gemini_prompt "first message" (Json.arr [])
          = promptHeader ++ (json_dumps2 (Json.arr []) ++ b1)
        ∧ ask_gemini_prompt "second message" (Json.arr [])
          = promptHeader ++ (json_dumps2 (Json.arr []) ++ b2) := by
  have h := listing_store_immutable
    { api_key := "k", housing_data := Json.obj [("listings", Json.arr [])] }
    { message := "first message" } { message := "second message" }
    (fun _ => Except.ok "[]")
  exact ⟨h.1, h.2 (Json.arr []) (by rfl)⟩

/-- C2.  If the completion client answers this request's prompt with text
that parses as a JSON array of N Recommendation-shaped objects, the
endpoint returns the validated recommendations — exactly N of them, in the
array's order — with the reply stating the count N. -/
theorem chat_valid_array (st : AppState) (l : Json) (req : ChatRequest)
    (complete : String → Except String String) (raw : String)
    (xs : List Json) (recs : List Recommendation)
    (hl : dictGet st.housing_data "listings" = some l)
    (hcall : complete (ask_gemini_prompt req.message l) = Except.ok raw)
    (hparse : json_loads raw = some (Json.arr xs))
    (hval : mapOptionAll validateRecommendation xs = some recs) :
    chat st req complete
      = Except.ok { reply := countReply xs.length, recommendations := recs }
    ∧ recs.length = xs.length
    ∧ ∀ i (h1 : i < xs.length) (h2 : i < recs.length),
        validateRecommendation (xs.get ⟨i, h1⟩) = some (recs.get ⟨i, h2⟩) := by
  refine ⟨?_, mapOptionAll_length validateRecommendation xs recs hval,
    mapOptionAll_get validateRecommendation xs recs hval⟩
  simp [chat, ask_gemini, hl, hcall, hparse, pyLen, validateRecommendations, hval]

theorem chat_valid_array_witness :
    chat { api_key := "k", housing_data := Json.obj [("listings", Json.arr [])] }
        { message := "cheap 2 bed near campus" }
        (fun _ => Except.ok "[\x7b\"title\":\"Aspen Heights\",\"price\":1200,\"bedrooms\":2,\"bathrooms\":1,\"address\":\"123 Main\",\"reason\":\"fits budget\"\x7d]")
      = Except.ok
          { reply := "I found 1 housing options matching your request.",
            recommendations :=
              [{ title := "Aspen Heights", price := 1200, bedrooms := 2,
                 bathrooms := 1, address := "123 Main", reason := "fits budget" }] } := by
  have h := chat_valid_array
    { api_key := "k", housing_data := Json.obj [("listings", Json.arr [])] }
    (Json.arr []) { message := "cheap 2 bed near campus" }
    (fun _ => Except.ok "[\x7b\"title\":\"Aspen Heights\",\"price\":1200,\"bedrooms\":2,\"bathrooms\":1,\"address\":\"123 Main\",\"reason\":\"fits budget\"\x7d]")
    "[\x7b\"title\":\"Aspen Heights\",\"price\":1200,\"bedrooms\":2,\"bathrooms\":1,\"address\":\"123 Main\",\"reason\":\"fits budget\"\x7d]"
    [Json.obj [("title", Json.str "Aspen Heights"), ("price", Json.num 1200),
      ("bedrooms", Json.num 2), ("bathrooms", Json.num 1),
      ("address", Json.str "123 Main"), ("reason", Json.str "fits budget")]]
    [{ title := "Aspen Heights", price := 1200, bedrooms := 2,
       bathrooms := 1, address := "123 Main", reason := "fits budget" }]
    (by rfl) (by rfl) (by rfl) (by rfl)
  exact h.1

/-- C3.  If the completion client answers this request's prompt with text
that is not valid JSON, the endpoint returns empty recommendations and a
reply that is the parse-failure notice followed by the raw text verbatim,
the raw text at the end. -/
theorem chat_unparsable (st : AppState) (l : Json) (req : ChatRequest)
    (complete : String → Except String String) (raw : String)
    (hl : dictGet st.housing_data "listings" = some l)
    (hcall : complete (ask_gemini_prompt req.message l) = Except.ok raw)
    (hparse : json_loads raw = none) :
    chat st req complete
      = Except.ok { reply := parseFailureReply raw, recommendations := [] }
    ∧ parseFailureReply raw
        = ("Could not parse model output." : String) ++ (" Raw text:\n" ++ raw) := by
  refine ⟨?_, parseFailureReply_split raw⟩
  simp [chat, ask_gemini, hl, hcall, hparse]

theorem chat_unparsable_witness :
    (chat { api_key := "k", housing_data := Json.obj [("listings", Json.arr [])] }
        { message := "m" } (fun _ => Except.ok "not json")
      = Except.ok { reply := parseFailureReply "not json", recommendations := [] })
    ∧ (chat { api_key := "k", housing_data := Json.obj [("listings", Json.arr [])] }
        { message := "m" } (fun _ => Except.ok "\x7bbad json")
      = Except.ok { reply := parseFailureReply "\x7bbad json", recommendations := [] }) :=
  ⟨(chat_unparsable { api_key := "k", housing_data := Json.obj [("listings", Json.arr [])] }
      (Json.arr []) { message := "m" } (fun _ => Except.ok "not json") "not json"
      (by rfl) (by rfl) (by rfl)).1,
   (chat_unparsable { api_key := "k", housing_data := Json.obj [("listings", Json.arr [])] }
      (Json.arr []) { message := "m" } (fun _ => Except.ok "\x7bbad json") "\x7bbad json"
      (by rfl) (by rfl) (by rfl)).1⟩

/-- C1 (counterexample).  The raw text `"5"` is valid JSON that is not an
array of Recommendation-shaped objects — a "parse failure" in the claim's
wording — yet the endpoint does not recover: `len(recommendations)` raises
an uncaught `TypeError`, no 200 `ChatResponse` is produced, and the request
fails outright. -/
theorem chat_schema_mismatch_not_recovered :
    returnsOk (chat { api_key := "k", housing_data := Json.obj [("listings", Json.arr [])] }
        { message := "cheap housing" } (fun _ => Except.ok "5")) = false
    ∧ chat { api_key := "k", housing_data := Json.obj [("listings", Json.arr [])] }
        { message := "cheap housing" } (fun _ => Except.ok "5")
      = Except.error ChatError.lenTypeError :=
  ⟨rfl, rfl⟩

/-- C1 (amended).  Only a JSON-decoding failure is recovered: when the raw
text is not valid JSON the endpoint returns the 200 degraded response with
empty recommendations and the diagnostic reply; when the raw text is valid
JSON that is structurally not an array of objects bearing the six
`Recommendation` fields (not an array, or an element that is not an object
or lacks a required field), the exception escapes the handler and no
`ChatResponse` is produced — the request fails outright.  (Field-value
coercion corners, such as pydantic's integral-float acceptance, are outside
this statement.) -/
theorem chat_recovery_only_json_decode (st : AppState) (l : Json)
    (req : ChatRequest) (complete : String → Except String String) (raw : String)
    (hl : dictGet st.housing_data "listings" = some l)
    (hcall : complete (ask_gemini_prompt req.message l) = Except.ok raw) :
    (json_loads raw = none →
      chat st req complete
        = Except.ok { reply := parseFailureReply raw, recommendations := [] })
    ∧ (∀ j, json_loads raw = some j → notRecommendationArrayShape j = true →
        returnsOk (chat st req complete) = false) := by
  constructor
  · intro hp
    simp [chat, ask_gemini, hl, hcall, hp]
  · intro j hp hshape
    have hv := validateRecommendations_none_of_shape j hshape
    simp only [chat, ask_gemini, hl, hcall, hp]
    cases hlen : pyLen j with
    | none => simp [returnsOk]
    | some n => simp [hv, returnsOk]

theorem chat_recovery_only_json_decode_witness :
    (chat { api_key := "k", housing_data := Json.obj [("listings", Json.arr [])] }
        { message := "m" } (fun _ => Except.ok "not json")
      = Except.ok { reply := parseFailureReply "not json", recommendations := [] })
    ∧ returnsOk (chat { api_key := "k", housing_data := Json.obj [("listings", Json.arr [])] }
        { message := "m" } (fun _ => Except.ok "[\x7b\x7d]")) = false :=
  ⟨(chat_recovery_only_json_decode
      { api_key := "k", housing_data := Json.obj [("listings", Json.arr [])] }
      (Json.arr []) { message := "m" } (fun _ => Except.ok "not json") "not json"
      (by rfl) (by rfl)).1 (by rfl),
   (chat_recovery_only_json_decode
      { api_key := "k", housing_data := Json.obj [("listings", Json.arr [])] }
      (Json.arr []) { message := "m" } (fun _ => Except.ok "[\x7b\x7d]") "[\x7b\x7d]"
      (by rfl) (by rfl)).2 (Json.arr [Json.obj []]) (by rfl) (by rfl)⟩


/-- C8.  A transport error raised by the completion call is caught nowhere
in the handler's pipeline: it propagates out of the handler and no
`ChatResponse` is produced for the request. -/
theorem chat_transport_propagates (st : AppState) (l : Json) (req : ChatRequest)
    (complete : String → Except String String) (msg : String)
    (hl : dictGet st.housing_data "listings" = some l)
    (hcall : complete (ask_gemini_prompt req.message l) = Except.error msg) :
    chat st req complete = Except.error (ChatError.transport msg)
    ∧ returnsOk (chat st req complete) = false := by
  have h : chat st req complete = Except.error (ChatError.transport msg) := by
    simp [chat, ask_gemini, hl, hcall]
  exact ⟨h, by rw [h]; rfl⟩

theorem chat_transport_propagates_witness :
    chat { api_key := "k", housing_data := Json.obj [("listings", Json.arr [])] }
        { message := "m" } (fun _ => Except.error "connection reset")
      = Except.error (ChatError.transport "connection reset")
    ∧ returnsOk (chat { api_key := "k", housing_data := Json.obj [("listings", Json.arr [])] }
        { message := "m" } (fun _ => Except.error "connection reset")) = false :=
  chat_transport_propagates
    { api_key := "k", housing_data := Json.obj [("listings", Json.arr [])] }
    (Json.arr []) { message := "m" } (fun _ => Except.error "connection reset")
    "connection reset" (by rfl) (by rfl)

/-- C9.  A data file that is valid JSON without a top-level `listings` field
passes startup (which only requires the file to parse), and then every
request fails before any completion call: `listings['listings']` raises
inside `ask_gemini`, whatever the completion client would have answered. -/
theorem startup_ok_requests_fail_without_listings_key (k c : String) (j : Json)
    (req : ChatRequest) (complete : String → Except String String)
    (hk : ¬ k = "") (hc : json_loads c = some j)
    (hmiss : dictGet j "listings" = none) :
    startup (some k) (some c) = Except.ok { api_key := k, housing_data := j }
    ∧ chat { api_key := k, housing_data := j } req complete
        = Except.error ChatError.missingListingsKey := by
  constructor
  · simp [startup, hk, hc]
  · simp [chat, ask_gemini, hmiss]

theorem startup_ok_requests_fail_without_listings_key_witness :
    startup (some "key") (some "\x7b\x7d")
      = Except.ok { api_key := "key", housing_data := Json.obj [] }
    ∧ chat { api_key := "key", housing_data := Json.obj [] } { message := "m" }
        (fun _ => Except.ok "[]")
      = Except.error ChatError.missingListingsKey :=
  startup_ok_requests_fail_without_listings_key "key" "\x7b\x7d" (Json.obj [])
    { message := "m" } (fun _ => Except.ok "[]")
    (by decide) (by rfl) (by rfl)

/-- C7.  Startup is fatal on missing configuration: an absent (or empty)
credential, a missing listings file, or a listings file that is not valid
JSON each raise during the module-level initialization, so no `AppState`
exists and the HTTP server never accepts a connection. -/
theorem startup_fatal_on_missing_config (env file : Option String)
    (h : env = none ∨ env = some "" ∨ file = none
        ∨ ∃ c, file = some c ∧ json_loads c = none) :
    returnsOk (startup env file) = false := by
  rcases h with h | h | h | ⟨c, hf, hc⟩
  · subst h; rfl
  · subst h; rfl
  · subst h
    cases env with
    | none => rfl
    | some k =>
      simp only [startup]
      split
      · rfl
      · rfl
  · subst hf
    cases env with
    | none => rfl
    | some k =>
      simp only [startup]
      split
      · rfl
      · simp [hc, returnsOk]

theorem startup_fatal_on_missing_config_witness :
    returnsOk (startup none (some "\x7b\"listings\": []\x7d")) = false
    ∧ returnsOk (startup (some "key") none) = false
    ∧ returnsOk (startup (some "key") (some "\x7bbad json")) = false :=
  ⟨startup_fatal_on_missing_config none (some "\x7b\"listings\": []\x7d") (Or.inl rfl),
   startup_fatal_on_missing_config (some "key") none (Or.inr (Or.inr (Or.inl rfl))),
   startup_fatal_on_missing_config (some "key") (some "\x7bbad json")
     (Or.inr (Or.inr (Or.inr ⟨"\x7bbad json", rfl, by rfl⟩)))⟩

/-- C10.  Every `ChatResponse` the handler actually produces has exactly one
of two shapes: the degraded shape — reply starting with the parse-failure
notice and empty recommendations — or the success shape — reply exactly
`countReply n` with `n` the length of the recommendations; never both. -/
theorem chat_response_dichotomy (st : AppState) (req : ChatRequest)
    (complete : String → Except String String) (resp : ChatResponse)
    (h : chat st req complete = Except.ok resp) :
    ((∃ t, resp.reply = ("Could not parse model output." : String) ++ t)
        ∧ resp.recommendations = []
        ∧ resp.reply ≠ countReply resp.recommendations.length)
    ∨ (resp.reply = countReply resp.recommendations.length
        ∧ ∀ t, resp.reply ≠ ("Could not parse model output." : String) ++ t) := by
  simp only [chat] at h
  cases hag : ask_gemini req.message st.housing_data complete with
  | error e => rw [hag] at h; exact absurd h (by simp)
  | ok raw =>
    rw [hag] at h
    dsimp only at h
    cases hp : json_loads raw with
    | none =>
      rw [hp] at h
      dsimp only at h
      simp only [Except.ok.injEq] at h
      subst h
      left
      refine ⟨⟨" Raw text:\n" ++ raw, parseFailureReply_split raw⟩, rfl, ?_⟩
      rw [parseFailureReply_split]
      intro hEq
      exact countReply_ne_noticeAppend _ _ hEq.symm
    | some j =>
      rw [hp] at h
      dsimp only at h
      cases hlen : pyLen j with
      | none => rw [hlen] at h; exact absurd h (by simp)
      | some n =>
        rw [hlen] at h
        dsimp only at h
        cases hv : validateRecommendations j with
        | none => rw [hv] at h; exact absurd h (by simp)
        | some recs =>
          rw [hv] at h
          dsimp only at h
          simp only [Except.ok.injEq] at h
          subst h
          right
          have hn := pyLen_of_validate j recs hv
          rw [hlen] at hn
          have hn2 : n = recs.length := Option.some.inj hn
          subst hn2
          exact ⟨rfl, fun t => countReply_ne_noticeAppend _ t⟩

theorem chat_response_dichotomy_witness :
    ((∃ t, ("I found 0 housing options matching your request." : String)
          = ("Could not parse model output." : String) ++ t)
        ∧ ([] : List Recommendation) = []
        ∧ ("I found 0 housing options matching your request." : String)
            ≠ countReply ([] : List Recommendation).length)
    ∨ (("I found 0 housing options matching your request." : String)
          = countReply ([] : List Recommendation).length
        ∧ ∀ t, ("I found 0 housing options matching your request." : String)
            ≠ ("Could not parse model output." : String) ++ t) :=
  chat_response_dichotomy
    { api_key := "k", housing_data := Json.obj [("listings", Json.arr [])] }
    { message := "m" } (fun _ => Except.ok "[]")
    { reply := "I found 0 housing options matching your request.",
      recommendations := [] }
    (by rfl)

end Zariya
